import Mathlib

/-!
Shallow embedding of the xmrdirect escrow coordinator.

The definitions below are direct ports of the TypeScript source:
* the multisig session routes (`server/src/routes/multisig.ts`):
  `POST /multisig/:sessionId/prepare`, `/make`, `/exchange` and the
  admin route `/admin/retry-service-exchange`;
* the trade routes (`server/src/routes/trades.ts`):
  `POST /trades/:id/initiate-release`, `/finalize-release`, and the
  admin escrow release route (`admin.ts`);
* the deposit monitor (`server/src/services/depositMonitor.ts`):
  `performWalletCheck`, `checkTradeDeposit`, and the `walletLocks`
  mutex protocol of `checkWalletDeposits`;
* the persistence helpers (`db.ts`): `recordPlatformFee` and the
  `multisig_sessions` / `trades` / `platform_fees` records.

Wallet-capability operations (monero-ts) are opaque to the coordinator;
they are modelled by oracle structures whose fields give the value each
call returns, and every handler also returns the list of wallet calls it
performed so that claims about which blobs are passed to the capability
can be stated.  JavaScript truthiness on the TEXT columns (null and ""
are both falsy) is modelled by `truthy` on `Option String`.  Monetary
amounts are rationals; the conversion to atomic units mirrors
`BigInt(Math.floor(x * 1e12))`.
-/

namespace XmrDirect

/-- Status column of a `multisig_sessions` row. -/
inductive SessionStatus where
  | preparing
  | making
  | exchanging
  | ready
deriving Repr, DecidableEq

/-- The three participant ids accepted by the multisig routes
(`"service"`, `"user_a"`, `"user_b"`). -/
inductive Participant where
  | service
  | user_a
  | user_b
deriving Repr, DecidableEq

/-- JavaScript truthiness of a nullable TEXT column: `null`/absent and the
empty string are falsy, every other string is truthy. -/
def truthy (o : Option String) : Bool :=
  !(o.getD "" == "")

/-- One `multisig_sessions` row (the fields the routes read or write). -/
structure Session where
  status : SessionStatus
  threshold : Nat
  total_participants : Nat
  service_prepared_hex : Option String
  user_a_prepared_hex : Option String
  user_b_prepared_hex : Option String
  service_made_hex : Option String
  user_a_made_hex : Option String
  user_b_made_hex : Option String
  exchange_round : Nat
  service_exchange_hexes : Option String
  user_a_exchange_hexes : Option String
  user_b_exchange_hexes : Option String
  service_exchange_hexes_prev : Option String
  user_a_exchange_hexes_prev : Option String
  user_b_exchange_hexes_prev : Option String
  multisig_address : Option String
deriving Repr, DecidableEq

/-- `totalRounds = session.total_participants - session.threshold + 1`
(computed identically in the exchange route and the admin retry route). -/
def totalRounds (s : Session) : Nat :=
  s.total_participants - s.threshold + 1

/-- A call made against the wallet capability, with the arguments the
coordinator passed. -/
inductive WalletCall where
  | makeMultisigCall (peerHexes : List (Option String)) (threshold : Nat)
  | exchangeMultisigKeys (peerHexes : List (Option String))
  | getAddress
  | openAndSync
  | getBalances
  | createTx (address : String) (atomicAmount : Int)
  | signMultisigTxHex (hex : String)
  | submitMultisigTxHex (hex : String)
deriving Repr, DecidableEq

/-- Oracle for the service wallet during multisig setup: the blob returned
by `makeMultisig`, the blob returned by `exchangeMultisigKeys`, the
primary address, and whether the try/catch-protected auto-trigger
succeeds (`autoOk = false` models a wallet-capability failure swallowed
by the catch block). -/
structure Wallet where
  makeResult : List (Option String) → String
  exchangeResult : List (Option String) → String
  address : String
  autoOk : Bool

/-- Result of a multisig route handler: the stored session after the
request, the HTTP status, and the wallet calls performed. -/
structure HandlerResult where
  session : Session
  httpStatus : Nat
  calls : List WalletCall
deriving Repr, DecidableEq

/-- `allPrepared` check of the prepare route. -/
def allPrepared (s : Session) : Bool :=
  truthy s.service_prepared_hex && truthy s.user_a_prepared_hex &&
    truthy s.user_b_prepared_hex

/-- `allMade` check of the make route. -/
def allMade (s : Session) : Bool :=
  truthy s.service_made_hex && truthy s.user_a_made_hex &&
    truthy s.user_b_made_hex

/-- `allExchanged` check of the exchange route. -/
def allExchanged (s : Session) : Bool :=
  truthy s.service_exchange_hexes && truthy s.user_a_exchange_hexes &&
    truthy s.user_b_exchange_hexes

/-- Is the submitter the service participant? -/
def isService (p : Participant) : Bool :=
  match p with
  | .service => true
  | _ => false

/-- `POST /multisig/:sessionId/prepare`: only `user_a` / `user_b` are valid
participant ids; the submitted hex overwrites the role's slot (an absent
body field leaves the slot untouched, mirroring `updateSession` dropping
`undefined`); when all three `preparedHex` are truthy the status advances
to `making`.  The handler performs no wallet-capability call. -/
def submitPrepared (s : Session) (p : Participant) (preparedHex : Option String) :
    HandlerResult :=
  if s.status = SessionStatus.preparing then
    match p with
    | .service => ⟨s, 400, []⟩
    | .user_a =>
        let s1 := match preparedHex with
          | none => s
          | some h => { s with user_a_prepared_hex := some h }
        ⟨if allPrepared s1 then { s1 with status := .making } else s1, 200, []⟩
    | .user_b =>
        let s1 := match preparedHex with
          | none => s
          | some h => { s with user_b_prepared_hex := some h }
        ⟨if allPrepared s1 then { s1 with status := .making } else s1, 200, []⟩
  else ⟨s, 400, []⟩

/-- `POST /multisig/:sessionId/make`: the service branch computes its made
hex from the two users' `preparedHex`; a user branch stores the submitted
`madeHex` (rejecting a falsy one); if afterwards both users have made and
the service has not, the auto-trigger computes the service's made hex
from the users' `preparedHex`; when all three made hexes are truthy the
status advances to `exchanging`. -/
def submitMade (W : Wallet) (s : Session) (p : Participant) (madeHex : Option String) :
    HandlerResult :=
  if s.status = SessionStatus.making then
    let step : Option (Session × List WalletCall) :=
      match p with
      | .service =>
          let peers := [s.user_a_prepared_hex, s.user_b_prepared_hex]
          some ({ s with service_made_hex := some (W.makeResult peers) },
                [.makeMultisigCall peers s.threshold])
      | .user_a =>
          if truthy madeHex then some ({ s with user_a_made_hex := madeHex }, [])
          else none
      | .user_b =>
          if truthy madeHex then some ({ s with user_b_made_hex := madeHex }, [])
          else none
    match step with
    | none => ⟨s, 400, []⟩
    | some (s1, c1) =>
        let fired := truthy s1.user_a_made_hex && truthy s1.user_b_made_hex &&
          !truthy s1.service_made_hex && !isService p && W.autoOk
        let autoMade := some (W.makeResult [s1.user_a_prepared_hex, s1.user_b_prepared_hex])
        let s2 :=
          if fired then { s1 with service_made_hex := autoMade }
          else s1
        let c2 : List WalletCall :=
          if fired then
            [.makeMultisigCall [s1.user_a_prepared_hex, s1.user_b_prepared_hex] s1.threshold]
          else []
        ⟨if allMade s2 then { s2 with status := .exchanging } else s2, 200, c1 ++ c2⟩
  else ⟨s, 400, []⟩

/-- Participant-specific validation of the exchange route: the service
branch needs no body hex, a user submission must carry a truthy
`exchangeHex`. -/
def exchangeUserGuard (p : Participant) (hex : Option String) : Bool :=
  match p with
  | .service => true
  | _ => truthy hex

/-- The submission step of the exchange route.  The service branch calls
`exchangeMultisigKeys` on the users' `madeHex` at round 0 and on the
users' *previous round* exchange hexes at later rounds; at the final
round it additionally fetches the multisig address.  A user branch just
stores the submitted hex. -/
def submitStepExchange (W : Wallet) (s : Session) (p : Participant)
    (hex : Option String) : Session × List WalletCall :=
  match p with
  | .service =>
      let peers := if s.exchange_round = 0 then
          [s.user_a_made_hex, s.user_b_made_hex]
        else
          [s.user_a_exchange_hexes_prev, s.user_b_exchange_hexes_prev]
      let resHex := W.exchangeResult peers
      if s.exchange_round = totalRounds s - 1 then
        ({ s with multisig_address := some W.address,
                  service_exchange_hexes := some resHex },
         [.exchangeMultisigKeys peers, .getAddress])
      else
        ({ s with service_exchange_hexes := some resHex },
         [.exchangeMultisigKeys peers])
  | .user_a => ({ s with user_a_exchange_hexes := hex }, [])
  | .user_b => ({ s with user_b_exchange_hexes := hex }, [])

/-- Auto-trigger condition of the exchange route: both users exchanged,
the service slot is still falsy, and the submitter is not the service. -/
def autoExchangeCondition (p : Participant) (s1 : Session) : Bool :=
  truthy s1.user_a_exchange_hexes && truthy s1.user_b_exchange_hexes &&
    !truthy s1.service_exchange_hexes && !isService p

/-- The auto-trigger step of the exchange route.  Note: at round ≥ 1 it
passes the users' *current* round exchange hexes
(`user_a_exchange_hexes` / `user_b_exchange_hexes`), not the previous
round's, to `exchangeMultisigKeys`. -/
def autoStepExchange (W : Wallet) (p : Participant) (s1 : Session) :
    Session × List WalletCall :=
  if autoExchangeCondition p s1 && W.autoOk then
    let peers := if s1.exchange_round = 0 then
        [s1.user_a_made_hex, s1.user_b_made_hex]
      else
        [s1.user_a_exchange_hexes, s1.user_b_exchange_hexes]
    let resHex := W.exchangeResult peers
    if s1.exchange_round = totalRounds s1 - 1 then
      ({ s1 with service_exchange_hexes := some resHex,
                 multisig_address := some W.address },
       [.exchangeMultisigKeys peers, .getAddress])
    else
      ({ s1 with service_exchange_hexes := some resHex },
       [.exchangeMultisigKeys peers])
  else (s1, [])

/-- The round-advance step of the exchange route: when all three exchange
slots are truthy the round counter is incremented; if no round remains
the status becomes `ready`, otherwise the completed round's hexes are
copied into the `_prev` columns and the current slots are cleared. -/
def advanceStepExchange (s2 : Session) : Session :=
  if allExchanged s2 then
    if totalRounds s2 ≤ s2.exchange_round + 1 then
      { s2 with status := .ready, exchange_round := s2.exchange_round + 1 }
    else
      { s2 with exchange_round := s2.exchange_round + 1,
                service_exchange_hexes_prev := s2.service_exchange_hexes,
                user_a_exchange_hexes_prev := s2.user_a_exchange_hexes,
                user_b_exchange_hexes_prev := s2.user_b_exchange_hexes,
                service_exchange_hexes := none,
                user_a_exchange_hexes := none,
                user_b_exchange_hexes := none }
  else s2

/-- The session state the exchange route reads back (`finalSession`) after
the submission write and the possible auto-trigger, before the
round-advance check. -/
def exchangeFinalSession (W : Wallet) (s : Session) (p : Participant)
    (hex : Option String) : Session :=
  (autoStepExchange W p (submitStepExchange W s p hex).1).1

/-- Wallet calls performed by the exchange route. -/
def exchangeCalls (W : Wallet) (s : Session) (p : Participant)
    (hex : Option String) : List WalletCall :=
  (submitStepExchange W s p hex).2 ++
    (autoStepExchange W p (submitStepExchange W s p hex).1).2

/-- `POST /multisig/:sessionId/exchange`, assembled from the steps above in
the order of the source: status guard, submission write, auto-trigger,
round-advance. -/
def submitExchange (W : Wallet) (s : Session) (p : Participant)
    (hex : Option String) : HandlerResult :=
  if s.status = SessionStatus.exchanging then
    if exchangeUserGuard p hex then
      ⟨advanceStepExchange (exchangeFinalSession W s p hex), 200,
       exchangeCalls W s p hex⟩
    else ⟨s, 400, []⟩
  else ⟨s, 400, []⟩

/-- `POST /multisig/:sessionId/admin/retry-service-exchange`: re-attempts
the service's exchange for a stuck session.  Guards: status must be
`exchanging`, both users must have exchanged, the service must not.  At
round ≥ 1 it passes the users' *current* exchange hexes.  When all three
slots are then truthy it advances the round — but the non-final branch
only increments `exchange_round`: it neither copies the completed
round's hexes into the `_prev` columns nor clears the current slots. -/
def retryServiceExchange (W : Wallet) (s : Session) : HandlerResult :=
  if s.status = SessionStatus.exchanging then
    if truthy s.user_a_exchange_hexes && truthy s.user_b_exchange_hexes then
      if truthy s.service_exchange_hexes then ⟨s, 400, []⟩
      else
        let peers := if s.exchange_round = 0 then
            [s.user_a_made_hex, s.user_b_made_hex]
          else
            [s.user_a_exchange_hexes, s.user_b_exchange_hexes]
        let resHex := W.exchangeResult peers
        let s1 := if s.exchange_round = totalRounds s - 1 then
            { s with service_exchange_hexes := some resHex,
                     multisig_address := some W.address }
          else
            { s with service_exchange_hexes := some resHex }
        let calls := if s.exchange_round = totalRounds s - 1 then
            [WalletCall.exchangeMultisigKeys peers, WalletCall.getAddress]
          else
            [WalletCall.exchangeMultisigKeys peers]
        let s2 :=
          if allExchanged s1 then
            if totalRounds s1 ≤ s1.exchange_round + 1 then
              { s1 with status := .ready, exchange_round := s1.exchange_round + 1 }
            else
              { s1 with exchange_round := s1.exchange_round + 1 }
          else s1
        ⟨s2, 200, calls⟩
    else ⟨s, 400, []⟩
  else ⟨s, 400, []⟩

/-! ## Trade lifecycle (`routes/trades.ts`, `routes/admin.ts`, `db.ts`) -/

/-- Status column of a `trades` row. -/
inductive TradeStatus where
  | pending
  | funded
  | payment_sent
  | payment_confirmed
  | releasing
  | completed
  | disputed
  | cancelled
deriving Repr, DecidableEq

/-- One `trades` row (the fields the release routes read or write). -/
structure Trade where
  id : String
  buyer_id : String
  seller_id : String
  amount : ℚ
  xmr_amount : ℚ
  status : TradeStatus
  multisig_session_id : Option String
deriving Repr, DecidableEq

/-- One `platform_fees` row as inserted by `recordPlatformFee` (the table
has no uniqueness constraint on `trade_id`; each insert gets a fresh
random id). -/
structure PlatformFee where
  trade_id : String
  amount_xmr : ℚ
  fee_percentage : ℚ
deriving Repr, DecidableEq

/-- `FEE_PERCENTAGE = 0.005` (0.5%), as in both release routes. -/
def FEE_PERCENTAGE : ℚ := 5 / 1000

/-- `BigInt(Math.floor(x * 1e12))`: XMR amount to atomic units. -/
def toAtomicUnits (x : ℚ) : Int :=
  ⌊x * 10 ^ 12⌋

/-- Oracle for the service wallet during release: the confirmed (unlocked)
balance, whether `createTx` succeeds for a given atomic amount (monero-ts
throws on insufficient funds), and the blobs/hashes the signing calls
return. -/
structure ReleaseWallet where
  unlockedBalance : Int
  createTxOk : Int → Bool
  exportedHex : String
  signedHex : String → String
  txHashes : List String

/-- Result of `POST /trades/:id/initiate-release`. -/
structure InitiateResult where
  trade : Trade
  httpStatus : Nat
  txAmount : Option Int
  calls : List WalletCall
deriving Repr

/-- `POST /trades/:id/initiate-release` (seller only, `payment_sent` only):
computes `amountAfterFee = xmr_amount - xmr_amount * FEE_PERCENTAGE`,
asks the wallet capability to create the transaction for that atomic
amount, and returns the unsigned hex.  The route never updates the
trade.  There is no balance check: an insufficient-funds failure of
`createTx` is caught by the route's catch-all and surfaces as HTTP 500. -/
def initiateRelease (W : ReleaseWallet) (t : Trade) (callerId : String)
    (recipientAddress : Option String) (sess : Option Session) : InitiateResult :=
  if t.seller_id = callerId then
    if t.status = TradeStatus.payment_sent then
      if truthy recipientAddress then
        if truthy t.multisig_session_id then
          match sess with
          | none => ⟨t, 400, none, []⟩
          | some s =>
              if s.status = SessionStatus.ready then
                let amountAfterFee := t.xmr_amount - t.xmr_amount * FEE_PERCENTAGE
                let atomic := toAtomicUnits amountAfterFee
                if W.createTxOk atomic then
                  ⟨t, 200, some atomic,
                   [.openAndSync, .createTx (recipientAddress.getD "") atomic]⟩
                else ⟨t, 500, none, [.openAndSync]⟩
              else ⟨t, 400, none, []⟩
        else ⟨t, 400, none, []⟩
      else ⟨t, 400, none, []⟩
    else ⟨t, 400, none, []⟩
  else ⟨t, 403, none, []⟩

/-- Result of `POST /trades/:id/finalize-release` or the admin escrow
release: the trade row, the `platform_fees` table, the HTTP status and
the wallet calls. -/
structure FinalizeResult where
  trade : Trade
  fees : List PlatformFee
  httpStatus : Nat
  calls : List WalletCall
deriving Repr

/-- `POST /trades/:id/finalize-release` (seller only): marks the trade
`releasing`, co-signs the seller's hex, submits, records the platform fee
(`recordPlatformFee` appends a new `platform_fees` row), and marks the
trade `completed`.  The route has no trade-status guard and no check for
an already-recorded fee. -/
def finalizeRelease (W : ReleaseWallet) (t : Trade) (callerId : String)
    (sellerSignedHex : Option String) (sess : Option Session)
    (fees : List PlatformFee) : FinalizeResult :=
  if t.seller_id = callerId then
    if truthy sellerSignedHex then
      match sess with
      | none => ⟨t, fees, 404, []⟩
      | some _ =>
          let hex := sellerSignedHex.getD ""
          let feeXmr := t.xmr_amount * FEE_PERCENTAGE
          ⟨{ t with status := .completed },
           fees ++ [⟨t.id, feeXmr, FEE_PERCENTAGE⟩], 200,
           [.signMultisigTxHex hex, .submitMultisigTxHex (W.signedHex hex)]⟩
    else ⟨t, fees, 400, []⟩
  else ⟨t, fees, 403, []⟩

/-- `POST /admin/trades/:id/release-escrow` (admin only): after the
recipient/status/session guards it opens and syncs the wallet, reads the
unlocked balance, and rejects with HTTP 400 — leaving the trade and fee
table untouched — when the balance is below the trade amount in atomic
units; otherwise it creates the after-fee transaction, signs it, records
the platform fee and marks the trade `completed`. -/
def adminReleaseEscrow (W : ReleaseWallet) (t : Trade) (recipient : Option String)
    (recipientAddress : Option String) (sess : Option Session)
    (fees : List PlatformFee) : FinalizeResult :=
  if recipient = some "buyer" ∨ recipient = some "seller" then
    if truthy recipientAddress then
      if t.status = TradeStatus.payment_confirmed ∨ t.status = TradeStatus.disputed then
        if truthy t.multisig_session_id then
          match sess with
          | none => ⟨t, fees, 404, []⟩
          | some s =>
              if s.status = SessionStatus.ready then
                let tradeAmountAtomic := toAtomicUnits t.xmr_amount
                if W.unlockedBalance < tradeAmountAtomic then
                  ⟨t, fees, 400, [.openAndSync, .getBalances]⟩
                else
                  let feeXmr := t.xmr_amount * FEE_PERCENTAGE
                  let atomic := toAtomicUnits (t.xmr_amount - feeXmr)
                  ⟨{ t with status := .completed },
                   fees ++ [⟨t.id, feeXmr, FEE_PERCENTAGE⟩], 200,
                   [.openAndSync, .getBalances,
                    .createTx (recipientAddress.getD "") atomic,
                    .signMultisigTxHex W.exportedHex]⟩
              else ⟨t, fees, 400, []⟩
        else ⟨t, fees, 400, []⟩
      else ⟨t, fees, 400, []⟩
    else ⟨t, fees, 400, []⟩
  else ⟨t, fees, 400, []⟩

/-! ## Deposit monitor (`services/depositMonitor.ts`) -/

/-- Oracle for a deposit check: whether open/sync succeeds within the
timeout, and the two balances the wallet reports. -/
structure DepositWallet where
  syncOk : Bool
  balance : Int
  unlockedBalance : Int

/-- Result of `performWalletCheck`. -/
structure DepositCheckResult where
  hasDeposit : Bool
  isUnlocked : Bool
  balance : Int
  calls : List WalletCall
deriving Repr, DecidableEq

/-- `performWalletCheck(sessionId, expectedAmount)`: returns all-false with
balance 0 and no wallet call when the session is missing or not `ready`;
otherwise opens/syncs the wallet (any failure is caught and also returns
all-false), converts `expectedAmount` to atomic units via
`BigInt(Math.floor(expectedAmount * 1e12))`, and compares the two
balances against it. -/
def performWalletCheck (W : DepositWallet) (sess : Option Session)
    (expectedAmount : ℚ) : DepositCheckResult :=
  match sess with
  | none => ⟨false, false, 0, []⟩
  | some s =>
      if s.status = SessionStatus.ready then
        if W.syncOk then
          let expectedAtomic := toAtomicUnits expectedAmount
          ⟨decide (expectedAtomic ≤ W.balance),
           decide (expectedAtomic ≤ W.unlockedBalance),
           W.balance, [.openAndSync, .getBalances]⟩
        else ⟨false, false, 0, [.openAndSync]⟩
      else ⟨false, false, 0, []⟩

/-- Result of `checkTradeDeposit`. -/
structure TradeDepositResult where
  success : Bool
  hasDeposit : Bool
  isUnlocked : Bool
  balance : Int
  trade : Option Trade
  calls : List WalletCall
deriving Repr, DecidableEq

/-- `checkTradeDeposit(tradeId)`: fails fast when the trade is missing or
has no linked session; otherwise runs the wallet check and flips the
trade from `pending` to `funded` exactly when the deposit is unlocked
and the trade is still `pending`. -/
def checkTradeDeposit (W : DepositWallet) (t : Option Trade)
    (sess : Option Session) : TradeDepositResult :=
  match t with
  | none => ⟨false, false, false, 0, none, []⟩
  | some tr =>
      if truthy tr.multisig_session_id then
        let r := performWalletCheck W sess tr.xmr_amount
        let tr2 := if r.isUnlocked && decide (tr.status = TradeStatus.pending) then
            { tr with status := .funded }
          else tr
        ⟨true, r.hasDeposit, r.isUnlocked, r.balance, some tr2, r.calls⟩
      else ⟨false, false, false, 0, some tr, []⟩

/-! ## The `walletLocks` mutex protocol of `checkWalletDeposits`

Node.js runs each request handler synchronously between `await` points,
so the concurrency of `checkWalletDeposits` is faithfully captured by a
small-step system over the per-session lock map entry and the control
point of each concurrent caller:

* a caller at its entry point with no lock entry present atomically
  stores its own operation promise and begins the wallet round trip
  (there is no `await` between the `has` check and the `set`);
* a caller at its entry point that finds a lock entry awaits that stored
  promise;
* a caller whose round trip finishes resolves its promise and deletes
  the map entry (the `finally` block runs before any waiter resumes);
* a waiter whose awaited caller has finished resumes and — without
  re-checking the map — stores its own promise and begins its own wallet
  round trip. -/

/-- Control point of one concurrent `checkWalletDeposits` caller. -/
inductive CallerPc where
  | start
  | waiting (j : Nat)
  | running
  | done
deriving Repr, DecidableEq

/-- The shared state: the `walletLocks` entry for the session (owner of
the stored promise, if any) and each caller's control point. -/
structure MonitorState where
  lock : Option Nat
  pcs : List CallerPc
deriving Repr, DecidableEq

/-- One interleaving step of the `walletLocks` protocol. -/
inductive LockStep : MonitorState → MonitorState → Prop where
  | enterFree {st : MonitorState} {i : Nat}
      (hpc : st.pcs[i]? = some .start) (hlock : st.lock = none) :
      LockStep st ⟨some i, st.pcs.set i .running⟩
  | enterBusy {st : MonitorState} {i j : Nat}
      (hpc : st.pcs[i]? = some .start) (hlock : st.lock = some j) :
      LockStep st ⟨st.lock, st.pcs.set i (.waiting j)⟩
  | finish {st : MonitorState} {i : Nat}
      (hpc : st.pcs[i]? = some .running) :
      LockStep st ⟨none, st.pcs.set i .done⟩
  | resume {st : MonitorState} {i j : Nat}
      (hpc : st.pcs[i]? = some (.waiting j))
      (hdone : st.pcs[j]? = some .done) :
      LockStep st ⟨some i, st.pcs.set i .running⟩

/-- Reachability under the lock protocol. -/
def LockReachable : MonitorState → MonitorState → Prop :=
  Relation.ReflTransGen LockStep

/-! ## Concrete fixtures used by the closed theorems and witnesses -/

/-- A wallet oracle with fixed blob results. -/
def sampleWallet : Wallet :=
  { makeResult := fun _ => "SMADE", exchangeResult := fun _ => "SEXCH",
    address := "MSADDR", autoOk := true }

/-- A 2-of-3 session in `exchanging`, round 0, where both users have
exchanged and the service has not (the situation the admin retry route
exists for). -/
def retrySession0 : Session :=
  { status := .exchanging, threshold := 2, total_participants := 3,
    service_prepared_hex := some "SP", user_a_prepared_hex := some "AP",
    user_b_prepared_hex := some "BP", service_made_hex := some "SM",
    user_a_made_hex := some "AM", user_b_made_hex := some "BM",
    exchange_round := 0, service_exchange_hexes := none,
    user_a_exchange_hexes := some "A0", user_b_exchange_hexes := some "B0",
    service_exchange_hexes_prev := none, user_a_exchange_hexes_prev := none,
    user_b_exchange_hexes_prev := none, multisig_address := none }

/-- A 2-of-3 session in `exchanging`, final round (round 1), where user A
has submitted the round-1 hex, round-0 hexes sit in the `_prev` columns,
and the service has not yet exchanged. -/
def finalRoundSession : Session :=
  { status := .exchanging, threshold := 2, total_participants := 3,
    service_prepared_hex := some "SP", user_a_prepared_hex := some "AP",
    user_b_prepared_hex := some "BP", service_made_hex := some "SM",
    user_a_made_hex := some "AM", user_b_made_hex := some "BM",
    exchange_round := 1, service_exchange_hexes := none,
    user_a_exchange_hexes := some "A1", user_b_exchange_hexes := none,
    service_exchange_hexes_prev := none, user_a_exchange_hexes_prev := some "A0",
    user_b_exchange_hexes_prev := some "B0", multisig_address := none }

/-- A session in `preparing` where the service and user A have prepared and
user B has not. -/
def prepareSession : Session :=
  { status := .preparing, threshold := 2, total_participants := 3,
    service_prepared_hex := some "SP", user_a_prepared_hex := some "AP",
    user_b_prepared_hex := none, service_made_hex := none,
    user_a_made_hex := none, user_b_made_hex := none,
    exchange_round := 0, service_exchange_hexes := none,
    user_a_exchange_hexes := none, user_b_exchange_hexes := none,
    service_exchange_hexes_prev := none, user_a_exchange_hexes_prev := none,
    user_b_exchange_hexes_prev := none, multisig_address := none }

/-- A session in `making` where user A has submitted a made hex and the
service and user B have not. -/
def makingSession : Session :=
  { status := .making, threshold := 2, total_participants := 3,
    service_prepared_hex := some "SP", user_a_prepared_hex := some "AP",
    user_b_prepared_hex := some "BP", service_made_hex := none,
    user_a_made_hex := some "AM", user_b_made_hex := none,
    exchange_round := 0, service_exchange_hexes := none,
    user_a_exchange_hexes := none, user_b_exchange_hexes := none,
    service_exchange_hexes_prev := none, user_a_exchange_hexes_prev := none,
    user_b_exchange_hexes_prev := none, multisig_address := none }

/-- A finished session (`ready`). -/
def readySession : Session :=
  { status := .ready, threshold := 2, total_participants := 3,
    service_prepared_hex := some "SP", user_a_prepared_hex := some "AP",
    user_b_prepared_hex := some "BP", service_made_hex := some "SM",
    user_a_made_hex := some "AM", user_b_made_hex := some "BM",
    exchange_round := 2, service_exchange_hexes := some "S1",
    user_a_exchange_hexes := some "A1", user_b_exchange_hexes := some "B1",
    service_exchange_hexes_prev := some "S0", user_a_exchange_hexes_prev := some "A0",
    user_b_exchange_hexes_prev := some "B0", multisig_address := some "MSADDR" }

/-- A trade of 2 XMR in `payment_sent`, linked to a session. -/
def sampleTrade : Trade :=
  { id := "T1", buyer_id := "B", seller_id := "S", amount := 800,
    xmr_amount := 2, status := .payment_sent, multisig_session_id := some "SES" }

/-- The same trade still `pending` (used for deposit checks). -/
def pendingTrade : Trade :=
  { id := "T1", buyer_id := "B", seller_id := "S", amount := 800,
    xmr_amount := 2, status := .pending, multisig_session_id := some "SES" }

/-- The same trade in `disputed` (used for the admin release route). -/
def disputedTrade : Trade :=
  { id := "T1", buyer_id := "B", seller_id := "S", amount := 800,
    xmr_amount := 2, status := .disputed, multisig_session_id := some "SES" }

/-- A release wallet whose transaction creation always succeeds. -/
def releaseWallet : ReleaseWallet :=
  { unlockedBalance := 10 ^ 13, createTxOk := fun _ => true,
    exportedHex := "EXPORTED", signedHex := fun _ => "COSIGNED",
    txHashes := ["TXID"] }

/-- An empty escrow wallet: zero unlocked balance, so `createTx` fails for
every positive amount (monero-ts throws on insufficient funds). -/
def emptyEscrowWallet : ReleaseWallet :=
  { unlockedBalance := 0, createTxOk := fun amt => decide (amt ≤ 0),
    exportedHex := "EXPORTED", signedHex := fun _ => "COSIGNED",
    txHashes := [] }

/-- A deposit wallet reporting 3 XMR total and 2 XMR unlocked. -/
def depositWalletRich : DepositWallet :=
  { syncOk := true, balance := 3 * 10 ^ 12, unlockedBalance := 2 * 10 ^ 12 }

/-! ## Theorems -/

/-- C2.  On the admin retry route, completing a non-final exchange round
does NOT copy the completed round's values into the `_prev` columns and
does NOT clear the current slots: at a 2-of-3 session in round 0 with
both users exchanged and the service not, the retry advances
`exchange_round` to 1 while all three current-round slots stay filled and
all three `_prev` columns stay empty — contradicting the claim that every
round-advancing code path copies and clears. -/
theorem retry_round_advance_keeps_stale_slots :
    (retryServiceExchange sampleWallet retrySession0).httpStatus = 200
    ∧ (retryServiceExchange sampleWallet retrySession0).session.exchange_round = 1
    ∧ (retryServiceExchange sampleWallet retrySession0).session.status
        = SessionStatus.exchanging
    ∧ (retryServiceExchange sampleWallet retrySession0).session.user_a_exchange_hexes
        = some "A0"
    ∧ (retryServiceExchange sampleWallet retrySession0).session.user_b_exchange_hexes
        = some "B0"
    ∧ (retryServiceExchange sampleWallet retrySession0).session.service_exchange_hexes
        = some "SEXCH"
    ∧ (retryServiceExchange sampleWallet retrySession0).session.user_a_exchange_hexes_prev
        = none
    ∧ (retryServiceExchange sampleWallet retrySession0).session.user_b_exchange_hexes_prev
        = none
    ∧ (retryServiceExchange sampleWallet retrySession0).session.service_exchange_hexes_prev
        = none := by
  decide

/-- C3.  When the service's exchange is auto-triggered by an external
participant's submission at round 1 (exchange_round ≥ 1), the peer hexes
passed to `exchangeMultisigKeys` are the users' *current* round-1
submissions, not the previous round's exchange values that sit in the
`_prev` columns — contradicting the claim that every service-side
invocation uses the previous round's values for round ≥ 1. -/
theorem auto_exchange_uses_current_round_hexes :
    finalRoundSession.exchange_round = 1
    ∧ finalRoundSession.user_a_exchange_hexes_prev = some "A0"
    ∧ finalRoundSession.user_b_exchange_hexes_prev = some "B0"
    ∧ (submitExchange sampleWallet finalRoundSession .user_b (some "B1")).calls
        = [.exchangeMultisigKeys [some "A1", some "B1"], .getAddress]
    ∧ ([some "A1", some "B1"] : List (Option String))
        ≠ [finalRoundSession.user_a_exchange_hexes_prev,
           finalRoundSession.user_b_exchange_hexes_prev] := by
  decide

/-- C4 counterexample.  Filling the third `preparedHex` slot advances the
status to `making`, but `submitPrepared` performs no wallet-capability
call and does not compute or persist the service's `madeHex` — refuting
the claim that the made-computation happens synchronously inside
`submitPrepared`. -/
theorem submitPrepared_makes_no_wallet_call :
    (submitPrepared prepareSession .user_b (some "BP")).session.status
        = SessionStatus.making
    ∧ (submitPrepared prepareSession .user_b (some "BP")).calls = []
    ∧ (submitPrepared prepareSession .user_b (some "BP")).session.service_made_hex
        = none := by
  decide

/-- C5.  `finalize-release` has no trade-status guard and
`recordPlatformFee` inserts unconditionally (fresh random id, no
uniqueness on `trade_id`), so a repeated finalize for the same trade
records a second `platform_fees` row: after two invocations the table
holds two fee rows for trade "T1", each `cryptoAmount × 0.005 = 0.01` —
contradicting the exactly-once claim (the per-row fee amount itself is
computed from the fixed `cryptoAmount`, as claimed). -/
theorem finalize_release_records_fee_each_time :
    (finalizeRelease releaseWallet
      (finalizeRelease releaseWallet sampleTrade "S" (some "SIG1") (some readySession) []).trade
      "S" (some "SIG2") (some readySession)
      (finalizeRelease releaseWallet sampleTrade "S" (some "SIG1") (some readySession) []).fees).httpStatus
        = 200
    ∧ (finalizeRelease releaseWallet
      (finalizeRelease releaseWallet sampleTrade "S" (some "SIG1") (some readySession) []).trade
      "S" (some "SIG2") (some readySession)
      (finalizeRelease releaseWallet sampleTrade "S" (some "SIG1") (some readySession) []).fees).fees.length
        = 2
    ∧ (finalizeRelease releaseWallet
      (finalizeRelease releaseWallet sampleTrade "S" (some "SIG1") (some readySession) []).trade
      "S" (some "SIG2") (some readySession)
      (finalizeRelease releaseWallet sampleTrade "S" (some "SIG1") (some readySession) []).fees).fees.map
        PlatformFee.trade_id = ["T1", "T1"]
    ∧ (finalizeRelease releaseWallet
      (finalizeRelease releaseWallet sampleTrade "S" (some "SIG1") (some readySession) []).trade
      "S" (some "SIG2") (some readySession)
      (finalizeRelease releaseWallet sampleTrade "S" (some "SIG1") (some readySession) []).fees).fees.map
        PlatformFee.amount_xmr = [1 / 100, 1 / 100] := by
  refine ⟨?_, ?_, ?_, ?_⟩ <;>
    simp [finalizeRelease, sampleTrade, releaseWallet, truthy, FEE_PERCENTAGE]
  norm_num

/-- C8 counterexample.  With an empty escrow wallet (unlocked balance 0,
so the capability's `createTx` throws for the 1.99 XMR payout), the
seller-facing `initiate-release` surfaces the failure as HTTP 500 via its
catch-all — not as the claimed 400 — though the trade row is indeed left
untouched.  (The 400 insufficient-balance rejection exists only on the
admin `release-escrow` route.) -/
theorem initiate_release_insufficient_balance_500 :
    (initiateRelease emptyEscrowWallet sampleTrade "S" (some "DEST") (some readySession)).httpStatus
        = 500
    ∧ (initiateRelease emptyEscrowWallet sampleTrade "S" (some "DEST") (some readySession)).httpStatus
        ≠ 400
    ∧ (initiateRelease emptyEscrowWallet sampleTrade "S" (some "DEST") (some readySession)).trade
        = sampleTrade := by
  have hle : ¬ toAtomicUnits ((2 : ℚ) - 2 * FEE_PERCENTAGE) ≤ (0 : Int) := by
    norm_num [toAtomicUnits, FEE_PERCENTAGE]
  refine ⟨?_, ?_, ?_⟩ <;>
    simp [initiateRelease, sampleTrade, readySession, truthy, emptyEscrowWallet, hle]

/-- C7.  `checkDeposit` compares the wallet's total and unlocked balances
against `expectedAmount` converted to atomic units
(`⌊expectedAmount * 10^12⌋`): `hasDeposit` holds iff the total balance
reaches it and `isUnlocked` iff the unlocked balance does; and
`checkTradeDeposit` moves the trade from `pending` to `funded` exactly
when `isUnlocked` holds and the trade is still `pending`, leaving it
unchanged otherwise. -/
theorem checkDeposit_atomic_comparison (W : DepositWallet) (t : Trade) (s : Session)
    (hready : s.status = SessionStatus.ready) (hok : W.syncOk = true)
    (hsid : truthy t.multisig_session_id = true) :
    (checkTradeDeposit W (some t) (some s)).hasDeposit
        = decide (toAtomicUnits t.xmr_amount ≤ W.balance)
    ∧ (checkTradeDeposit W (some t) (some s)).isUnlocked
        = decide (toAtomicUnits t.xmr_amount ≤ W.unlockedBalance)
    ∧ (toAtomicUnits t.xmr_amount ≤ W.unlockedBalance → t.status = TradeStatus.pending →
        (checkTradeDeposit W (some t) (some s)).trade = some { t with status := .funded })
    ∧ (¬(toAtomicUnits t.xmr_amount ≤ W.unlockedBalance ∧ t.status = TradeStatus.pending) →
        (checkTradeDeposit W (some t) (some s)).trade = some t) := by
  refine ⟨?_, ?_, ?_, ?_⟩ <;>
    simp [checkTradeDeposit, performWalletCheck, hready, hok, hsid]
  · intro h1 h2 h3
    exact absurd h2 (h3 h1)
  · intro h3 h1 h2
    exact absurd h2 (h3 h1)

/-- Witness for C7 at the concrete rich-wallet fixture. -/
theorem checkDeposit_atomic_comparison_witness :
    (readySession.status = SessionStatus.ready
      ∧ depositWalletRich.syncOk = true
      ∧ truthy pendingTrade.multisig_session_id = true)
    ∧ ((checkTradeDeposit depositWalletRich (some pendingTrade) (some readySession)).hasDeposit
        = decide (toAtomicUnits pendingTrade.xmr_amount ≤ depositWalletRich.balance)
    ∧ (checkTradeDeposit depositWalletRich (some pendingTrade) (some readySession)).isUnlocked
        = decide (toAtomicUnits pendingTrade.xmr_amount ≤ depositWalletRich.unlockedBalance)
    ∧ (toAtomicUnits pendingTrade.xmr_amount ≤ depositWalletRich.unlockedBalance →
        pendingTrade.status = TradeStatus.pending →
        (checkTradeDeposit depositWalletRich (some pendingTrade) (some readySession)).trade
          = some { pendingTrade with status := .funded })
    ∧ (¬(toAtomicUnits pendingTrade.xmr_amount ≤ depositWalletRich.unlockedBalance
          ∧ pendingTrade.status = TradeStatus.pending) →
        (checkTradeDeposit depositWalletRich (some pendingTrade) (some readySession)).trade
          = some pendingTrade)) :=
  ⟨⟨rfl, rfl, by decide⟩,
   checkDeposit_atomic_comparison depositWalletRich pendingTrade readySession rfl rfl (by decide)⟩

/-- C10.  When the trade's multisig session does not exist or is not yet
`ready`, the deposit check makes no wallet-capability call and returns
`hasDeposit = false`, `isUnlocked = false`, `balance = 0`, leaving the
trade unchanged. -/
theorem checkDeposit_session_not_ready (W : DepositWallet) (t : Trade) (sess : Option Session)
    (hsid : truthy t.multisig_session_id = true)
    (h : sess = none ∨ ∃ s, sess = some s ∧ s.status ≠ SessionStatus.ready) :
    (checkTradeDeposit W (some t) sess).hasDeposit = false
    ∧ (checkTradeDeposit W (some t) sess).isUnlocked = false
    ∧ (checkTradeDeposit W (some t) sess).balance = 0
    ∧ (checkTradeDeposit W (some t) sess).calls = []
    ∧ (checkTradeDeposit W (some t) sess).trade = some t := by
  rcases h with h | ⟨s, rfl, hs⟩
  · subst h
    simp [checkTradeDeposit, performWalletCheck, hsid]
  · simp [checkTradeDeposit, performWalletCheck, hsid, hs]

/-- Witness for C10 with a missing session. -/
theorem checkDeposit_session_not_ready_witness :
    (truthy pendingTrade.multisig_session_id = true
      ∧ ((none : Option Session) = none ∨ ∃ s, (none : Option Session) = some s
            ∧ s.status ≠ SessionStatus.ready))
    ∧ ((checkTradeDeposit depositWalletRich (some pendingTrade) none).hasDeposit = false
    ∧ (checkTradeDeposit depositWalletRich (some pendingTrade) none).isUnlocked = false
    ∧ (checkTradeDeposit depositWalletRich (some pendingTrade) none).balance = 0
    ∧ (checkTradeDeposit depositWalletRich (some pendingTrade) none).calls = []
    ∧ (checkTradeDeposit depositWalletRich (some pendingTrade) none).trade
        = some pendingTrade) :=
  ⟨⟨by decide, Or.inl rfl⟩,
   checkDeposit_session_not_ready depositWalletRich pendingTrade none (by decide) (Or.inl rfl)⟩

/-- C9.  The `walletLocks` mutex of `checkWalletDeposits` does not
serialize three concurrent callers: caller 0 takes the lock and runs;
callers 1 and 2 both find the lock and await caller 0's promise; when
caller 0 finishes (deleting the map entry), both waiters resume and —
without re-checking the map — each starts its own wallet round trip, so
a state is reachable in which two distinct callers are inside the
wallet-capability round trip at the same time, contradicting the claimed
strict mutual exclusion. -/
theorem walletLocks_overlap_reachable :
    LockReachable ⟨none, [.start, .start, .start]⟩ ⟨some 2, [.done, .running, .running]⟩
    ∧ ([CallerPc.done, .running, .running] : List CallerPc)[1]? = some CallerPc.running
    ∧ ([CallerPc.done, .running, .running] : List CallerPc)[2]? = some CallerPc.running
    ∧ (1 : Nat) ≠ 2 := by
  refine ⟨?_, rfl, rfl, by decide⟩
  refine Relation.ReflTransGen.head
    (@LockStep.enterFree ⟨none, [.start, .start, .start]⟩ 0 rfl rfl) ?_
  refine Relation.ReflTransGen.head
    (@LockStep.enterBusy ⟨some 0, [.running, .start, .start]⟩ 1 0 rfl rfl) ?_
  refine Relation.ReflTransGen.head
    (@LockStep.enterBusy ⟨some 0, [.running, .waiting 0, .start]⟩ 2 0 rfl rfl) ?_
  refine Relation.ReflTransGen.head
    (@LockStep.finish ⟨some 0, [.running, .waiting 0, .waiting 0]⟩ 0 rfl) ?_
  refine Relation.ReflTransGen.head
    (@LockStep.resume ⟨none, [.done, .waiting 0, .waiting 0]⟩ 1 0 rfl rfl) ?_
  refine Relation.ReflTransGen.head
    (@LockStep.resume ⟨some 1, [.done, .running, .waiting 0]⟩ 2 0 rfl rfl) ?_
  exact Relation.ReflTransGen.refl

/-- C6.  `initiate-release` builds the unsigned transaction for
`payout = cryptoAmount × (1 − feeRate)` in atomic units (the code's
`xmr_amount - xmr_amount * 0.005` equals `xmr_amount * 0.995`), and
`finalize-release` records a PlatformFee of `cryptoAmount × 0.005`; the
witness instantiates `cryptoAmount = 2.0`, giving an unsigned
transaction for 1.99 XMR (1990000000000 atomic units) and a fee record
of 0.01 XMR. -/
theorem release_payout_and_fee (W : ReleaseWallet) (t : Trade) (caller : String)
    (addr sig : Option String) (s : Session) (fees : List PlatformFee)
    (hseller : t.seller_id = caller) (hstatus : t.status = TradeStatus.payment_sent)
    (haddr : truthy addr = true) (hsid : truthy t.multisig_session_id = true)
    (hready : s.status = SessionStatus.ready)
    (hok : W.createTxOk (toAtomicUnits (t.xmr_amount * (1 - FEE_PERCENTAGE))) = true)
    (hsig : truthy sig = true) :
    (initiateRelease W t caller addr (some s)).txAmount
        = some (toAtomicUnits (t.xmr_amount * (1 - FEE_PERCENTAGE)))
    ∧ (initiateRelease W t caller addr (some s)).httpStatus = 200
    ∧ (finalizeRelease W t caller sig (some s) fees).fees
        = fees ++ [⟨t.id, t.xmr_amount * FEE_PERCENTAGE, FEE_PERCENTAGE⟩]
    ∧ (finalizeRelease W t caller sig (some s) fees).trade.status = TradeStatus.completed := by
  have harith : t.xmr_amount - t.xmr_amount * FEE_PERCENTAGE
      = t.xmr_amount * (1 - FEE_PERCENTAGE) := by ring
  refine ⟨?_, ?_, ?_, ?_⟩ <;>
    simp [initiateRelease, finalizeRelease, hseller, hstatus, haddr, hsid, hready,
      harith, hok, hsig]

/-- Witness for C6 at `cryptoAmount = 2.0`: the unsigned transaction is
for 1990000000000 atomic units (1.99 XMR) and the fee record is
0.01 XMR. -/
theorem release_payout_and_fee_witness :
    (sampleTrade.seller_id = "S"
      ∧ sampleTrade.status = TradeStatus.payment_sent
      ∧ readySession.status = SessionStatus.ready)
    ∧ (initiateRelease releaseWallet sampleTrade "S" (some "DEST") (some readySession)).txAmount
        = some 1990000000000
    ∧ (finalizeRelease releaseWallet sampleTrade "S" (some "SIG") (some readySession) []).fees
        = [⟨"T1", 1 / 100, FEE_PERCENTAGE⟩]
    ∧ (finalizeRelease releaseWallet sampleTrade "S" (some "SIG") (some readySession) []).trade.status
        = TradeStatus.completed := by
  have h := release_payout_and_fee releaseWallet sampleTrade "S" (some "DEST") (some "SIG")
    readySession [] rfl rfl (by decide) (by decide) rfl rfl (by decide)
  refine ⟨⟨rfl, rfl, rfl⟩, ?_, ?_, h.2.2.2⟩
  · rw [h.1]
    norm_num [toAtomicUnits, FEE_PERCENTAGE, sampleTrade]
  · rw [h.2.2.1]
    norm_num [FEE_PERCENTAGE, sampleTrade]

/-- C8 amended.  When the confirmed balance is insufficient at release
time, the seller-facing `initiate-release` surfaces the wallet
capability's `createTx` failure as HTTP 500 with the trade untouched
(the route performs no balance check of its own); the 400
insufficient-balance rejection, also with the trade and fee table
untouched, exists on the admin `release-escrow` route, which does read
the unlocked balance before creating the transaction. -/
theorem insufficient_balance_release_behavior (W : ReleaseWallet) (t : Trade)
    (caller : String) (recipient addr : Option String) (s : Session)
    (fees : List PlatformFee) :
    (t.seller_id = caller → t.status = TradeStatus.payment_sent →
      truthy addr = true → truthy t.multisig_session_id = true →
      s.status = SessionStatus.ready →
      W.createTxOk (toAtomicUnits (t.xmr_amount - t.xmr_amount * FEE_PERCENTAGE)) = false →
      (initiateRelease W t caller addr (some s)).httpStatus = 500
        ∧ (initiateRelease W t caller addr (some s)).trade = t)
    ∧ ((recipient = some "buyer" ∨ recipient = some "seller") →
      truthy addr = true →
      (t.status = TradeStatus.payment_confirmed ∨ t.status = TradeStatus.disputed) →
      truthy t.multisig_session_id = true →
      s.status = SessionStatus.ready →
      W.unlockedBalance < toAtomicUnits t.xmr_amount →
      (adminReleaseEscrow W t recipient addr (some s) fees).httpStatus = 400
        ∧ (adminReleaseEscrow W t recipient addr (some s) fees).trade = t
        ∧ (adminReleaseEscrow W t recipient addr (some s) fees).fees = fees) := by
  constructor
  · intro hseller hstatus haddr hsid hready hfail
    constructor <;>
      simp [initiateRelease, hseller, hstatus, haddr, hsid, hready, hfail]
  · intro hrecip haddr hstatus hsid hready hbal
    have hbal2 : ¬ toAtomicUnits t.xmr_amount ≤ W.unlockedBalance := not_le.mpr hbal
    refine ⟨?_, ?_, ?_⟩ <;>
      simp [adminReleaseEscrow, hrecip, haddr, hstatus, hsid, hready, hbal, hbal2]

/-- Witness for C8: the empty escrow wallet makes the seller route answer
500 and the admin route answer 400, both leaving the trade untouched. -/
theorem insufficient_balance_release_behavior_witness :
    ((initiateRelease emptyEscrowWallet sampleTrade "S" (some "DEST") (some readySession)).httpStatus
        = 500
      ∧ (initiateRelease emptyEscrowWallet sampleTrade "S" (some "DEST") (some readySession)).trade
        = sampleTrade)
    ∧ ((adminReleaseEscrow emptyEscrowWallet disputedTrade (some "seller") (some "DEST")
          (some readySession) []).httpStatus = 400
      ∧ (adminReleaseEscrow emptyEscrowWallet disputedTrade (some "seller") (some "DEST")
          (some readySession) []).trade = disputedTrade
      ∧ (adminReleaseEscrow emptyEscrowWallet disputedTrade (some "seller") (some "DEST")
          (some readySession) []).fees = []) := by
  constructor
  · exact (insufficient_balance_release_behavior emptyEscrowWallet sampleTrade "S"
      (some "seller") (some "DEST") readySession []).1 rfl rfl (by decide) (by decide) rfl
      (by norm_num [emptyEscrowWallet, toAtomicUnits, FEE_PERCENTAGE, sampleTrade])
  · exact (insufficient_balance_release_behavior emptyEscrowWallet disputedTrade "S"
      (some "seller") (some "DEST") readySession []).2 (Or.inr rfl) (by decide) (Or.inr rfl)
      (by decide) rfl
      (by norm_num [emptyEscrowWallet, toAtomicUnits, disputedTrade])

/-- C4 amended.  When the third `preparedHex` slot is filled while the
session is `preparing`, `submitPrepared` advances the status to `making`
exactly once — with no wallet-capability call and without touching the
service's `madeHex` (a repeated prepare against the advanced session is
rejected with 400 and changes nothing); the service's own `madeHex` is
instead computed by the make route's auto-trigger — firing when both
external participants have submitted `madeHex` and the service slot is
empty — which invokes `makeMultisig` on the two external participants'
`preparedHex` and persists the result, advancing the status to
`exchanging`. -/
theorem prepare_advances_made_computed_in_make (W : Wallet) (s sm : Session)
    (p : Participant) (h hm : String) :
    (s.status = SessionStatus.preparing → truthy s.service_prepared_hex = true → h ≠ "" →
      ((p = Participant.user_a ∧ truthy s.user_b_prepared_hex = true) ∨
       (p = Participant.user_b ∧ truthy s.user_a_prepared_hex = true)) →
      (submitPrepared s p (some h)).session.status = SessionStatus.making
      ∧ (submitPrepared s p (some h)).calls = []
      ∧ (submitPrepared s p (some h)).session.service_made_hex = s.service_made_hex)
    ∧ (sm.status = SessionStatus.making →
      (submitPrepared sm p (some h)).httpStatus = 400
      ∧ (submitPrepared sm p (some h)).session = sm)
    ∧ (sm.status = SessionStatus.making → W.autoOk = true → hm ≠ "" →
      truthy sm.service_made_hex = false →
      W.makeResult [sm.user_a_prepared_hex, sm.user_b_prepared_hex] ≠ "" →
      ((p = Participant.user_a ∧ truthy sm.user_b_made_hex = true) ∨
       (p = Participant.user_b ∧ truthy sm.user_a_made_hex = true)) →
      (submitMade W sm p (some hm)).session.service_made_hex
          = some (W.makeResult [sm.user_a_prepared_hex, sm.user_b_prepared_hex])
      ∧ (submitMade W sm p (some hm)).calls
          = [.makeMultisigCall [sm.user_a_prepared_hex, sm.user_b_prepared_hex] sm.threshold]
      ∧ (submitMade W sm p (some hm)).session.status = SessionStatus.exchanging) := by
  refine ⟨?_, ?_, ?_⟩
  · intro hst hsvc hne hcase
    have h1 : ¬ s.service_prepared_hex.getD "" = "" := by simpa [truthy] using hsvc
    rcases hcase with ⟨rfl, hother⟩ | ⟨rfl, hother⟩ <;>
      have h2 := hother <;> simp [truthy] at h2 <;>
      simp [submitPrepared, allPrepared, hst, hne, truthy, h1, h2]
  · intro hst
    have : sm.status ≠ SessionStatus.preparing := by rw [hst]; intro hc; cases hc
    constructor <;> simp [submitPrepared, this]
  · intro hst hauto hne hservice hmk hcase
    have h1 : sm.service_made_hex.getD "" = "" := by simpa [truthy] using hservice
    rcases hcase with ⟨rfl, hother⟩ | ⟨rfl, hother⟩ <;>
      have h2 := hother <;> simp [truthy] at h2 <;>
      simp [submitMade, allMade, isService, hst, hauto, hne, hmk, truthy, h1, h2]

/-- Witness for C4's amended statement: user B's third prepared submission
advances `prepareSession` to `making` with no wallet call; a repeated
prepare is rejected; user B's made submission on `makingSession`
auto-computes the service made hex from the two prepared hexes. -/
theorem prepare_advances_made_computed_in_make_witness :
    ((submitPrepared prepareSession .user_b (some "BP")).session.status = SessionStatus.making
      ∧ (submitPrepared prepareSession .user_b (some "BP")).calls = []
      ∧ (submitPrepared prepareSession .user_b (some "BP")).session.service_made_hex
          = prepareSession.service_made_hex)
    ∧ ((submitPrepared makingSession .user_b (some "BP")).httpStatus = 400
      ∧ (submitPrepared makingSession .user_b (some "BP")).session = makingSession)
    ∧ ((submitMade sampleWallet makingSession .user_b (some "BM")).session.service_made_hex
          = some (sampleWallet.makeResult
              [makingSession.user_a_prepared_hex, makingSession.user_b_prepared_hex])
      ∧ (submitMade sampleWallet makingSession .user_b (some "BM")).calls
          = [.makeMultisigCall
              [makingSession.user_a_prepared_hex, makingSession.user_b_prepared_hex]
              makingSession.threshold]
      ∧ (submitMade sampleWallet makingSession .user_b (some "BM")).session.status
          = SessionStatus.exchanging) := by
  have h := prepare_advances_made_computed_in_make sampleWallet prepareSession makingSession
    .user_b "BP" "BM"
  exact ⟨h.1 rfl (by decide) (by decide) (Or.inr ⟨rfl, by decide⟩),
         h.2.1 rfl,
         h.2.2 rfl rfl (by decide) (by decide) (by decide) (Or.inr ⟨rfl, by decide⟩)⟩

/-- The exchange route's submission and auto-trigger steps never touch
the round counter, the status, or the threshold configuration. -/
lemma exchangeFinalSession_preserved (W : Wallet) (s : Session) (p : Participant)
    (hex : Option String) :
    (exchangeFinalSession W s p hex).exchange_round = s.exchange_round
    ∧ (exchangeFinalSession W s p hex).status = s.status
    ∧ totalRounds (exchangeFinalSession W s p hex) = totalRounds s := by
  unfold exchangeFinalSession autoStepExchange submitStepExchange totalRounds
  cases p <;> dsimp only <;> split_ifs <;> simp


/-- On the final round, the `finalSession` the route reads back has a
populated multisig address: the service's direct submission and the
auto-trigger both fetch it at round `totalRounds - 1`, and when the
service slot was already filled before the call the address was already
populated (hypothesis `haddr`). -/
lemma exchangeFinalSession_address (W : Wallet) (s : Session) (p : Participant)
    (hex : Option String)
    (hfin : s.exchange_round + 1 = totalRounds s)
    (haddr : truthy s.service_exchange_hexes = true → s.multisig_address.isSome = true)
    (hall : allExchanged (exchangeFinalSession W s p hex) = true) :
    (exchangeFinalSession W s p hex).multisig_address.isSome = true := by
  have hidx : s.exchange_round = totalRounds s - 1 := by omega
  have hidx2 : s.exchange_round = s.total_participants - s.threshold := by
    unfold totalRounds at hfin
    omega
  cases p
  case service =>
    simp [exchangeFinalSession, submitStepExchange, autoStepExchange,
      autoExchangeCondition, isService, totalRounds, hidx2] at hall ⊢
  case user_a =>
    cases hc : autoExchangeCondition .user_a { s with user_a_exchange_hexes := hex } && W.autoOk
    · have hsvc : truthy s.service_exchange_hexes = true := by
        simp [exchangeFinalSession, submitStepExchange, autoStepExchange, hc,
          allExchanged, Bool.and_eq_true] at hall
        tauto
      simp [exchangeFinalSession, submitStepExchange, autoStepExchange, hc]
      exact haddr hsvc
    · simp only [hidx2] at hc
      simp [exchangeFinalSession, submitStepExchange, autoStepExchange, hc,
        totalRounds, hidx2]
  case user_b =>
    cases hc : autoExchangeCondition .user_b { s with user_b_exchange_hexes := hex } && W.autoOk
    · have hsvc : truthy s.service_exchange_hexes = true := by
        simp [exchangeFinalSession, submitStepExchange, autoStepExchange, hc,
          allExchanged, Bool.and_eq_true] at hall
        tauto
      simp [exchangeFinalSession, submitStepExchange, autoStepExchange, hc]
      exact haddr hsvc
    · simp only [hidx2] at hc
      simp [exchangeFinalSession, submitStepExchange, autoStepExchange, hc,
        totalRounds, hidx2]


/-- C1.  For a valid exchange submission against an `exchanging` session:
whenever afterwards all three roles' current-round `exchangeHex` are
truthy, the round counter advances by one; if a round remains
(`r + 1 < totalRounds`) the status stays `exchanging`, and on completing
the final round (`r + 1 = totalRounds`) the status becomes `ready` with
`multisigAddress` populated.  `totalRounds = totalParticipants −
threshold + 1`, which is 2 for the fixed 2-of-3 configuration. -/
theorem exchange_round_advance_and_ready (W : Wallet) (s : Session) (p : Participant)
    (hex : Option String)
    (hstatus : s.status = SessionStatus.exchanging)
    (hguard : exchangeUserGuard p hex = true)
    (hround : s.exchange_round < totalRounds s)
    (haddr : truthy s.service_exchange_hexes = true →
      s.exchange_round + 1 = totalRounds s → s.multisig_address.isSome = true)
    (hall : allExchanged (exchangeFinalSession W s p hex) = true) :
    (submitExchange W s p hex).session.exchange_round = s.exchange_round + 1
    ∧ (s.exchange_round + 1 < totalRounds s →
        (submitExchange W s p hex).session.status = SessionStatus.exchanging)
    ∧ (s.exchange_round + 1 = totalRounds s →
        (submitExchange W s p hex).session.status = SessionStatus.ready
        ∧ (submitExchange W s p hex).session.multisig_address.isSome = true)
    ∧ (s.threshold = 2 → s.total_participants = 3 → totalRounds s = 2) := by
  obtain ⟨hpr, hps, hpt⟩ := exchangeFinalSession_preserved W s p hex
  have hsub : (submitExchange W s p hex).session
      = advanceStepExchange (exchangeFinalSession W s p hex) := by
    unfold submitExchange
    rw [if_pos hstatus, if_pos hguard]
  rw [hsub]
  unfold advanceStepExchange
  rw [if_pos hall, hpr, hpt]
  by_cases hle : totalRounds s ≤ s.exchange_round + 1
  · have hfin : s.exchange_round + 1 = totalRounds s := by omega
    rw [if_pos hle]
    refine ⟨rfl, ?_, ?_, ?_⟩
    · intro hlt
      omega
    · intro _
      exact ⟨rfl, exchangeFinalSession_address W s p hex hfin (fun ht => haddr ht hfin) hall⟩
    · intro h2 h3
      simp [totalRounds, h2, h3]
  · rw [if_neg hle]
    refine ⟨rfl, ?_, ?_, ?_⟩
    · intro _
      simpa using hps.trans hstatus
    · intro heq
      omega
    · intro h2 h3
      simp [totalRounds, h2, h3]


/-- Witness for C1: user B's round-1 submission on `finalRoundSession`
completes the final round of a 2-of-3 session — status `ready`, round
counter 2, address populated. -/
theorem exchange_round_advance_and_ready_witness :
    (finalRoundSession.status = SessionStatus.exchanging
      ∧ exchangeUserGuard .user_b (some "B1") = true
      ∧ finalRoundSession.exchange_round < totalRounds finalRoundSession
      ∧ allExchanged (exchangeFinalSession sampleWallet finalRoundSession .user_b (some "B1"))
          = true)
    ∧ (submitExchange sampleWallet finalRoundSession .user_b (some "B1")).session.exchange_round
        = 2
    ∧ (submitExchange sampleWallet finalRoundSession .user_b (some "B1")).session.status
        = SessionStatus.ready
    ∧ (submitExchange sampleWallet finalRoundSession .user_b (some "B1")).session.multisig_address.isSome
        = true
    ∧ totalRounds finalRoundSession = 2 := by
  have h := exchange_round_advance_and_ready sampleWallet finalRoundSession .user_b
    (some "B1") rfl (by decide) (by decide) (by decide) (by decide)
  have hfin := h.2.2.1 (by decide)
  exact ⟨⟨rfl, by decide, by decide, by decide⟩, by simpa using h.1, hfin.1, hfin.2,
    h.2.2.2 rfl rfl⟩


end XmrDirect
